import Mathlib

/-!
Shallow embedding of `src/react/despawn_reader.rs` from the `bevy_cobweb`
repository: the `DespawnAccessTracker` resource (fields `currently_reacting`,
`reaction_source`, `reactor_handle`, `prepared`, with operations `prepare`,
`start`, `end`, `is_reacting`, `source`, and `Default`), and the
`DespawnEvent` system parameter (operations `entity`, `get`, `is_empty`).

The external identifier types are opaque to this module; they are modelled as
natural numbers: `Entity` (bevy entity id, the default tracker stores
`Entity::from_raw_u32(0)` which we model as `0`), `SystemCommand` (the reactor
identifier, compared with `==` in `start`), and `ReactorHandle` (an owned
handle; dropping it is modelled by removing it from the state, so the tracker
field is `Option ReactorHandle`).

`CobwebReactError` is defined elsewhere in the repository; only the variant
used by this file (`DespawnEvent`) is modelled.
-/

abbrev Entity := Nat

abbrev SystemCommand := Nat

abbrev ReactorHandle := Nat

/-- The error type of the reactive layer; only the `DespawnEvent` variant is
used by `despawn_reader.rs` (`Err(CobwebReactError::DespawnEvent)`). -/
inductive CobwebReactError where
  | DespawnEvent
deriving DecidableEq, Repr

/-- `DespawnAccessTracker`: tracks metadata for accessing entity reactions.
Mirrors the Rust struct field for field. -/
structure DespawnAccessTracker where
  /-- True when in a system reacting to an entity reaction. -/
  currently_reacting : Bool
  /-- The source of the most recent entity reaction. -/
  reaction_source : Entity
  /-- A handle to the current reactor; dropped after the reactor runs. -/
  reactor_handle : Option ReactorHandle
  /-- Reaction information cached for when the reaction system actually runs:
  `Vec<(SystemCommand, Entity, ReactorHandle)>`. -/
  prepared : List (SystemCommand × Entity × ReactorHandle)
deriving DecidableEq, Repr

/-- `impl Default for DespawnAccessTracker`: not reacting, source entity is
`Entity::from_raw_u32(0)`, no handle, empty prepared list. -/
def DespawnAccessTracker.default : DespawnAccessTracker :=
  { currently_reacting := false
    reaction_source := 0
    reactor_handle := none
    prepared := [] }

/-- `Iterator::position(pred)`: index of the first element satisfying the
predicate, if any (used by `self.prepared.iter().position(...)`). -/
def listPosition (p : α → Bool) : List α → Option Nat
  | [] => none
  | a :: l => if p a then some 0 else (listPosition p l).map (· + 1)

/-- `Vec::swap_remove(i)`: remove the element at index `i` by overwriting it
with the last element and popping the last slot. Only called with `i` in
bounds (the `[]` case is unreachable there). -/
def swapRemove (l : List α) (i : Nat) : List α :=
  match l.getLast? with
  | none => l
  | some last => (l.set i last).dropLast

/-- `DespawnAccessTracker::prepare`: caches metadata for an entity reaction by
pushing `(reactor, source, handle)` onto `prepared`. -/
def DespawnAccessTracker.prepare (t : DespawnAccessTracker) (reactor : SystemCommand)
    (source : Entity) (handle : ReactorHandle) : DespawnAccessTracker :=
  { t with prepared := t.prepared ++ [(reactor, source, handle)] }

/-- `DespawnAccessTracker::start`: find the first prepared entry whose reactor
equals `reactor`; if none, log an error / debug-assert and return with no state
change; otherwise `swap_remove` it and install it as the active context. -/
def DespawnAccessTracker.start (t : DespawnAccessTracker) (reactor : SystemCommand) :
    DespawnAccessTracker :=
  match listPosition (fun p => p.1 == reactor) t.prepared with
  | none => t
  | some pos =>
    match t.prepared[pos]? with
    | none => t
    | some (_, source, handle) =>
      { currently_reacting := true
        reaction_source := source
        reactor_handle := some handle
        prepared := swapRemove t.prepared pos }

/-- `DespawnAccessTracker::end`: unsets the reacting flag and drops the
reactor handle (`end` is a Lean keyword, hence the name). -/
def DespawnAccessTracker.end_reaction (t : DespawnAccessTracker) : DespawnAccessTracker :=
  { t with currently_reacting := false, reactor_handle := none }

/-- `DespawnAccessTracker::is_reacting`. -/
def DespawnAccessTracker.is_reacting (t : DespawnAccessTracker) : Bool :=
  t.currently_reacting

/-- `DespawnAccessTracker::source`. -/
def DespawnAccessTracker.source (t : DespawnAccessTracker) : Entity :=
  t.reaction_source

/-- `DespawnEvent<'w>`: system parameter wrapping read access to the tracker
resource. -/
structure DespawnEvent where
  tracker : DespawnAccessTracker
deriving DecidableEq, Repr

/-- `DespawnEvent::get`: `Err(CobwebReactError::DespawnEvent)` when not
reacting, otherwise `Ok(tracker.source())`. -/
def DespawnEvent.get (e : DespawnEvent) : Except CobwebReactError Entity :=
  if ¬ e.tracker.is_reacting then Except.error CobwebReactError.DespawnEvent
  else Except.ok e.tracker.source

/-- `DespawnEvent::entity`: `self.get().expect(...)`. A panic is modelled as
`none`; a normal return of entity `e` as `some e`. -/
def DespawnEvent.entity (e : DespawnEvent) : Option Entity :=
  match e.get with
  | Except.error _ => none
  | Except.ok ent => some ent

/-- `DespawnEvent::is_empty`: `self.get().is_err()`. -/
def DespawnEvent.is_empty (e : DespawnEvent) : Bool :=
  match e.get with
  | Except.error _ => true
  | Except.ok _ => false

/-- Operations a client may perform on the tracker (the accessor operations
take `&self` and cannot mutate it, so they are omitted). -/
inductive TrackerOp where
  | prepare (reactor : SystemCommand) (source : Entity) (handle : ReactorHandle)
  | start (reactor : SystemCommand)
  | endOp
deriving DecidableEq, Repr

/-- Whether an operation is a `prepare` call. -/
def TrackerOp.isPrepare : TrackerOp → Bool
  | .prepare _ _ _ => true
  | _ => false

/-- Apply one tracker operation. -/
def applyOp (t : DespawnAccessTracker) : TrackerOp → DespawnAccessTracker
  | .prepare r e h => t.prepare r e h
  | .start r => t.start r
  | .endOp => t.end_reaction

/-- Run a sequence of tracker operations, first operation first. -/
def runOps : List TrackerOp → DespawnAccessTracker → DespawnAccessTracker
  | [], t => t
  | op :: ops, t => runOps ops (applyOp t op)

/-! ### Helper lemmas -/

/-- If no element matches, `position` returns `none`. -/
theorem listPosition_eq_none {α : Type} {p : α → Bool} :
    ∀ {l : List α}, (∀ a ∈ l, p a = false) → listPosition p l = none
  | [], _ => rfl
  | a :: l, h => by
    have ha := h a (List.mem_cons_self a l)
    have hl := listPosition_eq_none (fun b hb => h b (List.mem_cons_of_mem a hb))
    simp [listPosition, ha, hl]

/-- If no element of `l` matches and `x` does, the first match in `l ++ [x]`
is at index `l.length`. -/
theorem listPosition_append_last {α : Type} {p : α → Bool} {x : α} (hx : p x = true) :
    ∀ {l : List α}, (∀ a ∈ l, p a = false) → listPosition p (l ++ [x]) = some l.length
  | [], _ => by simp [listPosition, hx]
  | a :: l, h => by
    have ha := h a (List.mem_cons_self a l)
    have hl := listPosition_append_last hx (fun b hb => h b (List.mem_cons_of_mem a hb))
    simp [listPosition, ha, hl]

/-- Indexing `l ++ [x]` at `l.length` yields `x`. -/
theorem getElem_append_length {α : Type} : ∀ (l : List α) (x : α), (l ++ [x])[l.length]? = some x
  | [], _ => rfl
  | a :: l, x => by simp [getElem_append_length l x]

/-- Setting the final slot of `l ++ [x]`. -/
theorem set_append_length {α : Type} :
    ∀ (l : List α) (x y : α), (l ++ [x]).set l.length y = l ++ [y]
  | [], _, _ => rfl
  | a :: l, x, y => by simp [set_append_length l x y]

/-- `swap_remove` at the final index just pops the final element. -/
theorem swapRemove_concat {α : Type} (l : List α) (x : α) :
    swapRemove (l ++ [x]) l.length = l := by
  have hlast : (l ++ [x]).getLast? = some x := by
    simp [List.getLast?_concat l]
  simp only [swapRemove, hlast, set_append_length]
  simp [List.dropLast_concat]

/-- `start` characterisation when no prepared entry matches. -/
theorem start_of_position_none (t : DespawnAccessTracker) (r : SystemCommand)
    (h : listPosition (fun p => p.1 == r) t.prepared = none) :
    t.start r = t := by
  simp [DespawnAccessTracker.start, h]

/-- `start` characterisation when the first match sits at index `pos`. -/
theorem start_of_position_some (t : DespawnAccessTracker) (r rr : SystemCommand)
    (pos : Nat) (s : Entity) (hd : ReactorHandle)
    (h1 : listPosition (fun p => p.1 == r) t.prepared = some pos)
    (h2 : t.prepared[pos]? = some (rr, s, hd)) :
    t.start r = { currently_reacting := true, reaction_source := s,
                  reactor_handle := some hd, prepared := swapRemove t.prepared pos } := by
  simp [DespawnAccessTracker.start, h1, h2]

/-- If the prepared list is `l ++ [(r, e, hd)]` with no entry for `r` in `l`,
then `start r` installs `(e, hd)` and leaves `l` as the prepared list. -/
theorem start_concat_fresh (t : DespawnAccessTracker) (r : SystemCommand)
    (e : Entity) (hd : ReactorHandle) (l : List (SystemCommand × Entity × ReactorHandle))
    (hl : t.prepared = l ++ [(r, e, hd)]) (hfree : ∀ p ∈ l, p.1 ≠ r) :
    t.start r = { currently_reacting := true, reaction_source := e,
                  reactor_handle := some hd, prepared := l } := by
  have hnone : ∀ p ∈ l, (fun q : SystemCommand × Entity × ReactorHandle => q.1 == r) p = false := by
    intro p hp
    simp [hfree p hp]
  have h1 : listPosition (fun q : SystemCommand × Entity × ReactorHandle => q.1 == r)
      t.prepared = some l.length := by
    rw [hl]
    exact listPosition_append_last (by simp) hnone
  have h2 : t.prepared[l.length]? = some (r, e, hd) := by
    rw [hl]
    exact getElem_append_length l (r, e, hd)
  rw [start_of_position_some t r r l.length e hd h1 h2, hl, swapRemove_concat]

/-- A run consisting only of `prepare` calls touches only the prepared list:
flag, source and handle are unchanged. -/
theorem runOps_prepares_frame : ∀ (ops : List TrackerOp) (t : DespawnAccessTracker),
    (∀ op ∈ ops, op.isPrepare = true) →
    (runOps ops t).currently_reacting = t.currently_reacting ∧
    (runOps ops t).reaction_source = t.reaction_source ∧
    (runOps ops t).reactor_handle = t.reactor_handle
  | [], _, _ => ⟨rfl, rfl, rfl⟩
  | op :: ops, t, h => by
    match op with
    | .prepare r e hd =>
      have ih := runOps_prepares_frame ops (t.prepare r e hd)
        (fun o ho => h o (List.mem_cons_of_mem _ ho))
      simpa [runOps, applyOp, DespawnAccessTracker.prepare] using ih
    | .start r =>
      have hop := h _ (List.mem_cons_self _ _)
      simp [TrackerOp.isPrepare] at hop
    | .endOp =>
      have hop := h _ (List.mem_cons_self _ _)
      simp [TrackerOp.isPrepare] at hop

/-- The tracker invariant of claim C5: the reacting flag is set exactly when a
reactor handle is held. -/
def trackerInv (t : DespawnAccessTracker) : Prop :=
  t.currently_reacting = t.reactor_handle.isSome

/-- Every single operation preserves the tracker invariant. -/
theorem trackerInv_applyOp (t : DespawnAccessTracker) (op : TrackerOp)
    (h : trackerInv t) : trackerInv (applyOp t op) := by
  cases op with
  | prepare r e hd =>
    simpa [trackerInv, applyOp, DespawnAccessTracker.prepare] using h
  | start r =>
    simp only [applyOp, DespawnAccessTracker.start]
    split
    · exact h
    · split
      · exact h
      · simp [trackerInv]
  | endOp =>
    simp [trackerInv, applyOp, DespawnAccessTracker.end_reaction]

/-- The tracker invariant is preserved by any run of operations. -/
theorem trackerInv_runOps : ∀ (ops : List TrackerOp) (t : DespawnAccessTracker),
    trackerInv t → trackerInv (runOps ops t)
  | [], _, h => h
  | op :: ops, t, h => trackerInv_runOps ops _ (trackerInv_applyOp t op h)

/-- `end` on a state that is already idle (flag down, no handle) is the
identity. -/
theorem end_reaction_noop (t : DespawnAccessTracker) (h1 : t.currently_reacting = false)
    (h2 : t.reactor_handle = none) : t.end_reaction = t := by
  cases t
  simp_all [DespawnAccessTracker.end_reaction]

/-! ### Claim theorems -/

/-- Claim C1, counterexample to the statement as given. The claim quantifies
over every tracker state; from a state already holding a prepared entry for
reactor `0` with source `5`, the sequence `prepare(0, 9, 1)` then `start(0)`
sets `is_reacting` but installs source `5` (the first positional match for
reactor `0`), not the freshly prepared `9`. -/
theorem prepare_then_start_source_mismatch :
    (((DespawnAccessTracker.default.prepare 0 5 0).prepare 0 9 1).start 0).is_reacting = true ∧
    (((DespawnAccessTracker.default.prepare 0 5 0).prepare 0 9 1).start 0).source = 5 ∧
    ¬ ((((DespawnAccessTracker.default.prepare 0 5 0).prepare 0 9 1).start 0).source = 9) := by
  decide

/-- Claim C1, amended: for every tracker state whose waiting collection holds
no entry for reactor `r`, after `prepare(r, e, hd)` then `start(r)` the
tracker is reacting with source `e`, both remain so across any further
`prepare` calls, and the matching `end` resets the reacting flag. -/
theorem prepare_then_start_activates_source (t : DespawnAccessTracker)
    (r : SystemCommand) (e : Entity) (hd : ReactorHandle)
    (hfree : ∀ p ∈ t.prepared, p.1 ≠ r)
    (ops : List TrackerOp) (hops : ∀ op ∈ ops, op.isPrepare = true) :
    ((t.prepare r e hd).start r).is_reacting = true ∧
    ((t.prepare r e hd).start r).source = e ∧
    (runOps ops ((t.prepare r e hd).start r)).is_reacting = true ∧
    (runOps ops ((t.prepare r e hd).start r)).source = e ∧
    ((runOps ops ((t.prepare r e hd).start r)).end_reaction).is_reacting = false := by
  have hkey := start_concat_fresh (t.prepare r e hd) r e hd t.prepared rfl hfree
  rw [hkey]
  have hrun := runOps_prepares_frame ops
    { currently_reacting := true, reaction_source := e,
      reactor_handle := some hd, prepared := t.prepared } hops
  refine ⟨rfl, rfl, ?_, ?_, rfl⟩
  · simpa [DespawnAccessTracker.is_reacting] using hrun.1
  · simpa [DespawnAccessTracker.source] using hrun.2.1

/-- Witness for `prepare_then_start_activates_source` at the default tracker,
reactor `0`, source `7`, handle `1`, with one interleaved `prepare`. -/
theorem prepare_then_start_activates_source_witness :
    ((DespawnAccessTracker.default.prepare 0 7 1).start 0).is_reacting = true ∧
    ((DespawnAccessTracker.default.prepare 0 7 1).start 0).source = 7 ∧
    (runOps [TrackerOp.prepare 2 3 4]
      ((DespawnAccessTracker.default.prepare 0 7 1).start 0)).is_reacting = true ∧
    (runOps [TrackerOp.prepare 2 3 4]
      ((DespawnAccessTracker.default.prepare 0 7 1).start 0)).source = 7 ∧
    ((runOps [TrackerOp.prepare 2 3 4]
      ((DespawnAccessTracker.default.prepare 0 7 1).start 0)).end_reaction).is_reacting = false :=
  prepare_then_start_activates_source DespawnAccessTracker.default 0 7 1
    (by decide) [TrackerOp.prepare 2 3 4] (by decide)

/-- Claim C2, counterexample to the statement as given. The claim quantifies
over every starting state; from a state already holding an entry for reactor
`1` with source `7`, the sequence `prepare(0, 5, 1)`, `prepare(1, 9, 2)`,
`start(1)` installs source `7` (the first positional match for reactor `1`),
not `9`. -/
theorem interleaved_start_takes_first_duplicate :
    ((((DespawnAccessTracker.default.prepare 1 7 0).prepare 0 5 1).prepare 1 9 2).start 1).source
      = 7 ∧
    ¬ (((((DespawnAccessTracker.default.prepare 1 7 0).prepare 0 5 1).prepare 1 9 2).start
      1).source = 9) := by
  decide

/-- Claim C2, amended: from any state whose waiting collection holds no entry
for `r1` or `r2`, after `prepare(r1, e1, h1)`, `prepare(r2, e2, h2)` with
`r1 ≠ r2`, `start(r2)` installs source `e2`; after the matching `end` and
`start(r1)`, the source is `e1` — matching is by reactor identifier. -/
theorem interleaved_reactions_independent (t : DespawnAccessTracker)
    (r1 r2 : SystemCommand) (e1 e2 : Entity) (h1 h2 : ReactorHandle)
    (hne : r1 ≠ r2) (hfree : ∀ p ∈ t.prepared, p.1 ≠ r1 ∧ p.1 ≠ r2) :
    (((t.prepare r1 e1 h1).prepare r2 e2 h2).start r2).source = e2 ∧
    (((((t.prepare r1 e1 h1).prepare r2 e2 h2).start r2).end_reaction).start r1).source = e1 := by
  have hfree2 : ∀ p ∈ t.prepared ++ [(r1, e1, h1)], p.1 ≠ r2 := by
    intro p hp
    rcases List.mem_append.mp hp with hp | hp
    · exact (hfree p hp).2
    · rw [List.mem_singleton.mp hp]
      exact hne
  have hstep1 := start_concat_fresh ((t.prepare r1 e1 h1).prepare r2 e2 h2) r2 e2 h2
    (t.prepared ++ [(r1, e1, h1)]) rfl hfree2
  have hfree1 : ∀ p ∈ t.prepared, p.1 ≠ r1 := fun p hp => (hfree p hp).1
  have hstep2 := start_concat_fresh
    (DespawnAccessTracker.end_reaction
      { currently_reacting := true, reaction_source := e2,
        reactor_handle := some h2, prepared := t.prepared ++ [(r1, e1, h1)] }) r1 e1 h1
    t.prepared rfl hfree1
  rw [hstep1, hstep2]
  exact ⟨rfl, rfl⟩

/-- Witness for `interleaved_reactions_independent` at the default tracker
with reactors `0` and `1`, sources `5` and `9`. -/
theorem interleaved_reactions_independent_witness :
    (((DespawnAccessTracker.default.prepare 0 5 0).prepare 1 9 1).start 1).source = 9 ∧
    (((((DespawnAccessTracker.default.prepare 0 5 0).prepare 1 9 1).start
      1).end_reaction).start 0).source = 5 :=
  interleaved_reactions_independent DespawnAccessTracker.default 0 1 5 9 0 1
    (by decide) (by decide)

/-- Claim C3: `get` returns `Ok` with the active source entity exactly when
`is_reacting` is true, and otherwise fails with the not-reacting error; in
particular `get` fails on the default tracker (before any `start`) and after
`end`. -/
theorem get_ok_iff_reacting (t : DespawnAccessTracker) (e : Entity) :
    (DespawnEvent.get ⟨t⟩ = Except.ok e ↔ t.is_reacting = true ∧ t.source = e) ∧
    (DespawnEvent.get ⟨t⟩ = Except.error CobwebReactError.DespawnEvent ↔
      t.is_reacting = false) ∧
    DespawnEvent.get ⟨DespawnAccessTracker.default⟩ =
      Except.error CobwebReactError.DespawnEvent ∧
    DespawnEvent.get ⟨t.end_reaction⟩ = Except.error CobwebReactError.DespawnEvent := by
  refine ⟨?_, ?_, rfl, ?_⟩
  · cases ht : t.currently_reacting <;>
      simp [DespawnEvent.get, DespawnAccessTracker.is_reacting, ht]
  · cases ht : t.currently_reacting <;>
      simp [DespawnEvent.get, DespawnAccessTracker.is_reacting, ht]
  · simp [DespawnEvent.get, DespawnAccessTracker.is_reacting,
      DespawnAccessTracker.end_reaction]

/-- Claim C4: `start(r)` with no matching prepared entry performs no state
change at all (fail-soft): the resulting tracker equals the input tracker. -/
theorem start_unprepared_is_noop (t : DespawnAccessTracker) (r : SystemCommand)
    (hfree : ∀ p ∈ t.prepared, p.1 ≠ r) :
    t.start r = t := by
  apply start_of_position_none
  apply listPosition_eq_none
  intro p hp
  simp [hfree p hp]

/-- Witness for `start_unprepared_is_noop`: reactor `0` was never prepared in
a tracker holding only an entry for reactor `1`. -/
theorem start_unprepared_is_noop_witness :
    (∀ p ∈ (DespawnAccessTracker.default.prepare 1 7 0).prepared, p.1 ≠ 0) ∧
    (DespawnAccessTracker.default.prepare 1 7 0).start 0 =
      DespawnAccessTracker.default.prepare 1 7 0 :=
  ⟨by decide, start_unprepared_is_noop (DespawnAccessTracker.default.prepare 1 7 0) 0 (by decide)⟩

/-- Claim C5: for every sequence of operations from the default tracker, the
`currently_reacting` flag is set exactly when a reactor handle (the active
reaction context) is held. -/
theorem reacting_flag_iff_handle_held (ops : List TrackerOp) :
    (runOps ops DespawnAccessTracker.default).currently_reacting =
      (runOps ops DespawnAccessTracker.default).reactor_handle.isSome :=
  trackerInv_runOps ops DespawnAccessTracker.default rfl

/-- Claim C6: `end` is total and idempotent: after any `start` it resets
`is_reacting` to false and drops the held cleanup handle; with no prior
`start` (any run of `prepare`s from the default tracker) it is a no-op; and
two `end`s in a row equal one. -/
theorem end_reaction_total_idempotent (t : DespawnAccessTracker) (r : SystemCommand)
    (ops : List TrackerOp) (hops : ∀ op ∈ ops, op.isPrepare = true) :
    ((t.start r).end_reaction).is_reacting = false ∧
    ((t.start r).end_reaction).reactor_handle = none ∧
    (runOps ops DespawnAccessTracker.default).end_reaction =
      runOps ops DespawnAccessTracker.default ∧
    ((t.end_reaction).end_reaction) = t.end_reaction := by
  refine ⟨rfl, rfl, ?_, rfl⟩
  have h := runOps_prepares_frame ops DespawnAccessTracker.default hops
  exact end_reaction_noop _ (h.1.trans rfl) (h.2.2.trans rfl)

/-- Witness for `end_reaction_total_idempotent` at a concrete started tracker
and a one-`prepare` run. -/
theorem end_reaction_total_idempotent_witness :
    ((((DespawnAccessTracker.default.prepare 0 7 1).start 0).start 2).end_reaction).is_reacting
      = false ∧
    ((((DespawnAccessTracker.default.prepare 0 7 1).start 0).start 2).end_reaction).reactor_handle
      = none ∧
    (runOps [TrackerOp.prepare 2 3 4] DespawnAccessTracker.default).end_reaction =
      runOps [TrackerOp.prepare 2 3 4] DespawnAccessTracker.default ∧
    ((((DespawnAccessTracker.default.prepare 0 7 1).start 0).end_reaction).end_reaction) =
      ((DespawnAccessTracker.default.prepare 0 7 1).start 0).end_reaction :=
  ⟨(end_reaction_total_idempotent ((DespawnAccessTracker.default.prepare 0 7 1).start 0) 2
      [] (by decide)).1,
    (end_reaction_total_idempotent ((DespawnAccessTracker.default.prepare 0 7 1).start 0) 2
      [] (by decide)).2.1,
    (end_reaction_total_idempotent ((DespawnAccessTracker.default.prepare 0 7 1).start 0) 2
      [TrackerOp.prepare 2 3 4] (by decide)).2.2.1,
    (end_reaction_total_idempotent ((DespawnAccessTracker.default.prepare 0 7 1).start 0) 2
      [] (by decide)).2.2.2⟩

/-- Claim C7: `entity` traps (modelled as `none`) exactly when `get` fails,
otherwise it returns the same entity `get` returns; in particular it traps
after a fail-soft `start` for an unprepared reactor on the default tracker. -/
theorem entity_traps_iff_get_fails (t : DespawnAccessTracker) (e : Entity)
    (r : SystemCommand) :
    (DespawnEvent.entity ⟨t⟩ = none ↔
      DespawnEvent.get ⟨t⟩ = Except.error CobwebReactError.DespawnEvent) ∧
    (DespawnEvent.entity ⟨t⟩ = some e ↔ DespawnEvent.get ⟨t⟩ = Except.ok e) ∧
    DespawnEvent.entity ⟨DespawnAccessTracker.default.start r⟩ = none := by
  have hstart : DespawnAccessTracker.default.start r = DespawnAccessTracker.default :=
    start_of_position_none DespawnAccessTracker.default r rfl
  refine ⟨?_, ?_, by rw [hstart]; rfl⟩
  · cases ht : t.currently_reacting <;>
      simp [DespawnEvent.entity, DespawnEvent.get, DespawnAccessTracker.is_reacting, ht]
  · cases ht : t.currently_reacting <;>
      simp [DespawnEvent.entity, DespawnEvent.get, DespawnAccessTracker.is_reacting, ht]

/-- Claim C8: `is_empty` returns true exactly when `get` fails, and false
exactly when `get` succeeds (with the stored source). -/
theorem is_empty_iff_get_fails (t : DespawnAccessTracker) :
    (DespawnEvent.is_empty ⟨t⟩ = true ↔
      DespawnEvent.get ⟨t⟩ = Except.error CobwebReactError.DespawnEvent) ∧
    (DespawnEvent.is_empty ⟨t⟩ = false ↔ DespawnEvent.get ⟨t⟩ = Except.ok t.source) := by
  cases ht : t.currently_reacting <;>
    simp [DespawnEvent.is_empty, DespawnEvent.get, DespawnAccessTracker.is_reacting, ht]

/-- Claim C9: `prepare` never fails and its only side effect is appending one
entry to the waiting collection; flag, stored source and stored handle are
unchanged. -/
theorem prepare_appends_one_entry (t : DespawnAccessTracker) (r : SystemCommand)
    (e : Entity) (hd : ReactorHandle) :
    (t.prepare r e hd).prepared = t.prepared ++ [(r, e, hd)] ∧
    (t.prepare r e hd).prepared.length = t.prepared.length + 1 ∧
    (t.prepare r e hd).currently_reacting = t.currently_reacting ∧
    (t.prepare r e hd).reaction_source = t.reaction_source ∧
    (t.prepare r e hd).reactor_handle = t.reactor_handle := by
  refine ⟨rfl, ?_, rfl, rfl, rfl⟩
  simp [DespawnAccessTracker.prepare]

/-- Claim C10: `end` does not clear the stored source entity (it resets only
the flag and the handle, leaving source and waiting collection alone), and the
stale source is unreachable through the accessor because `get` fails after
`end`. -/
theorem end_reaction_keeps_source (t : DespawnAccessTracker) :
    (t.end_reaction).source = t.source ∧
    (t.end_reaction).prepared = t.prepared ∧
    (t.end_reaction).currently_reacting = false ∧
    (t.end_reaction).reactor_handle = none ∧
    DespawnEvent.get ⟨t.end_reaction⟩ = Except.error CobwebReactError.DespawnEvent :=
  ⟨rfl, rfl, rfl, rfl, rfl⟩
